import Mathlib

/-!
Verification of the WordCloudGen application (`src/app.py`).

The program is a single-file interactive word-cloud generator.  Its own
logic is pure orchestration: validate the input text, build a stopword
set, configure and invoke the external layout library, distinguish the
"no renderable words" soft failure from other errors, encode the result
to PNG bytes, and offer a download.  We embed that orchestration shallowly:

* Python string operations (`strip`, `lower`, `split`, `in`) are modelled
  on `String`/`List Char`.
* The external collaborators (the wordcloud layout engine `wc.generate`
  and the matplotlib `savefig` encoder) are parameters of the embedding;
  the repository's own control flow around them is modelled exactly.
* One interaction pass of the script (one Streamlit rerun) is the pure
  function `runPass`, returning either a propagated exception or a
  `PassResult` recording the warnings shown, whether generation was
  invoked, the displayed figure, the PNG bytes, and the download button.
-/

/-- Characters treated as whitespace by Python's `str.strip()` (ASCII part). -/
def isPySpace (c : Char) : Bool :=
  c = ' ' || c = '\t' || c = '\n' || c = '\r' || c = '\x0b' || c = '\x0c'

/-- Python `s.strip()`: remove leading and trailing whitespace. -/
def pyStrip (s : String) : String :=
  String.mk (((s.data.dropWhile isPySpace).reverse.dropWhile isPySpace).reverse)

/-- Python `s.lower()` (ASCII letters, which is all the program relies on). -/
def pyLower (s : String) : String :=
  String.mk (s.data.map Char.toLower)

/-- Python truthiness of a string: non-empty. -/
def pyStrTruthy (s : String) : Bool :=
  s != ""

/-- Occurrence of `needle` as a contiguous sublist of `hay`. -/
def listHasInfix (needle : List Char) : List Char → Bool
  | [] => needle.isEmpty
  | c :: t => needle.isPrefixOf (c :: t) || listHasInfix needle t

/-- Python `needle in hay` on strings: substring occurrence. -/
def pyInStr (needle hay : String) : Bool :=
  listHasInfix needle.data hay.data

/-- Python `s.split(',')`: split on every comma, keeping empty pieces
(so `"".split(',') = [""]`). -/
def pySplitComma (s : String) : List String :=
  (s.data.splitOn ',').map String.mk

/-- Exceptions of the Python runtime, as far as the program distinguishes
them: `ValueError` (caught by name in `generate_wordcloud`) versus any
other exception class. -/
inductive PyExn where
  | valueError (msg : String)
  | otherExn (cls : String) (msg : String)
deriving DecidableEq, Repr

/-- Opaque handle for the object returned by the library's `wc.generate`. -/
structure WCObject where
  token : Nat
deriving DecidableEq, Repr

/-- A mask image array (`numpy` array in the source); only `none` is ever
passed by the program. -/
abbrev MaskArray := List (List Nat)

/-- The keyword arguments of the `WordCloud(...)` constructor call at
`src/app.py` lines 30-42, exactly as the program fills them in. -/
structure WCConfig where
  background_color : String
  stopwords : Finset String
  max_words : Int
  mask : Option MaskArray
  contour_width : Int
  contour_color : String
  colormap : String
  width : Option Int
  height : Option Int
  min_font_size : Int
  prefer_horizontal : ℚ
deriving DecidableEq

/-- Lines 26-28 of `src/app.py`:
`stopwords_set = set(STOPWORDS)` followed by
`if custom_stopwords: stopwords_set.update([word.strip().lower() for word
in custom_stopwords.split(',') if word.strip()])`.
`STOPWORDS` is the baseline set imported from the external library, so it
is a parameter here. -/
def buildStopwords (STOPWORDS : Finset String) (custom_stopwords : String) :
    Finset String :=
  if pyStrTruthy custom_stopwords then
    STOPWORDS ∪
      (((pySplitComma custom_stopwords).filter
          (fun word => pyStrTruthy (pyStrip word))).map
        (fun word => pyLower (pyStrip word))).toFinset
  else
    STOPWORDS

/-- The extra stopwords as the spec describes them: "split on commas; each
piece is trimmed and lower-cased; empty pieces after trimming are
discarded; surviving pieces are unioned into the set". -/
def specExtraStopwords (extra : String) : Finset String :=
  (((pySplitComma extra).map (fun piece => pyLower (pyStrip piece))).filter
    (fun piece => piece != "")).toFinset

/-- The warning shown by `generate_wordcloud` when the text yields no
words (line 49 of `src/app.py`). -/
def emptyResultWarningMsg : String :=
  "The provided text resulted in no words to display after processing (e.g., all stopwords or too short). Please try different text or fewer stopwords."

/-- The warning shown when the input text is blank (line 131 of
`src/app.py`). -/
def emptyInputWarningMsg : String :=
  "Please enter some text to generate a word cloud."

/-- The `WordCloud(...)` constructor call of `generate_wordcloud`
(`src/app.py` lines 30-42), including the conditional defaulting of the
contour and canvas-size arguments. -/
def mkWordCloudConfig (STOPWORDS : Finset String) (max_words : Int)
    (background_color colormap custom_stopwords : String)
    (mask_image_array : Option MaskArray) (contour_width : Int)
    (contour_color : String) (use_contour : Bool) : WCConfig :=
  { background_color := background_color
    stopwords := buildStopwords STOPWORDS custom_stopwords
    max_words := max_words
    mask := mask_image_array
    contour_width :=
      if use_contour && mask_image_array.isSome then contour_width else 0
    contour_color :=
      if use_contour && mask_image_array.isSome then contour_color else "black"
    colormap := colormap
    width := if mask_image_array.isNone then some 1200 else none
    height := if mask_image_array.isNone then some 600 else none
    min_font_size := 10
    prefer_horizontal := (9 : ℚ) / 10 }

/-- The function `generate_wordcloud` of `src/app.py` (lines 24-52).  The
external library call `wc.generate(text)` is the parameter `libGenerate`,
which may return a word-cloud object or raise.  The returned pair is
(the function's return value, the warnings it displayed):
a `ValueError` whose lower-cased message contains "empty" is turned into
a warning plus `None`; any other exception is re-raised. -/
def generate_wordcloud (STOPWORDS : Finset String)
    (libGenerate : WCConfig → String → Except PyExn WCObject)
    (text : String) (max_words : Int)
    (background_color colormap custom_stopwords : String)
    (mask_image_array : Option MaskArray) (contour_width : Int)
    (contour_color : String) (use_contour : Bool) :
    Except PyExn (Option WCObject × List String) :=
  let wc := mkWordCloudConfig STOPWORDS max_words background_color colormap
    custom_stopwords mask_image_array contour_width contour_color use_contour
  match libGenerate wc text with
  | .ok w => .ok (some w, [])
  | .error (.valueError msg) =>
      if pyInStr "empty" (pyLower msg) then
        .ok (none, [emptyResultWarningMsg])
      else
        .error (.valueError msg)
  | .error e => .error e

/-- The matplotlib figure built in the generate handler (`src/app.py`
lines 119-122): `plt.subplots(figsize=(12, 6))`, `ax.imshow(wordcloud_object,
interpolation='bilinear')`, `ax.axis("off")`. -/
structure Figure where
  figsize : Int × Int
  content : WCObject
  interpolation : String
  axisShown : Bool
deriving DecidableEq, Repr

/-- Building the display figure for a generated word cloud. -/
def renderWordCloudFigure (w : WCObject) : Figure :=
  { figsize := (12, 6), content := w, interpolation := "bilinear",
    axisShown := false }

/-- The keyword arguments of `fig.savefig` at line 126 of `src/app.py`:
`format='PNG', bbox_inches='tight', pad_inches=0.1, dpi=300`. -/
structure SaveFigParams where
  format : String
  bbox_inches : String
  pad_inches : ℚ
  dpi : Int
deriving DecidableEq, Repr

/-- The savefig parameters the program always uses. -/
def appSaveFigParams : SaveFigParams :=
  { format := "PNG", bbox_inches := "tight", pad_inches := (1 : ℚ) / 10,
    dpi := 300 }

/-- The `st.download_button` call at lines 135-141 of `src/app.py`. -/
structure DownloadButton where
  label : String
  data : List Nat
  file_name : String
  mime : String
deriving DecidableEq, Repr

/-- The download button as the program constructs it from the PNG bytes. -/
def mkDownloadButton (bytes : List Nat) : DownloadButton :=
  { label := "📥 Download Word Cloud (PNG)", data := bytes,
    file_name := "my_word_cloud.png", mime := "image/png" }

/-- The parameters of the `st.slider` call at line 78 of `src/app.py`:
`st.slider("Maximum Words:", min_value=10, max_value=500, value=100,
step=10)`. -/
structure SliderConfig where
  min_value : Int
  max_value : Int
  value : Int
  step : Int
deriving DecidableEq, Repr

/-- The max-words slider exactly as configured at line 78 of `src/app.py`. -/
def max_words_slider : SliderConfig :=
  { min_value := 10, max_value := 500, value := 100, step := 10 }

/-- Modelled from the spec: the host UI runtime's integer slider widget
(the widget implementation is external to the repository).  Per the spec,
"for max_words outside [10,500], the interface must reject or clamp
before invoking generation": an untouched slider reports its default
value, and any attempted value is clamped into `[min_value, max_value]`. -/
def sliderOutput (s : SliderConfig) (attempt : Option Int) : Int :=
  match attempt with
  | none => s.value
  | some v => max s.min_value (min s.max_value v)

/-- Python truthiness of the `wordcloud_image_bytes` variable: it is
truthy when it is not `None` and the bytes object is non-empty. -/
def pyBytesTruthy : Option (List Nat) → Bool
  | none => false
  | some b => b != []

/-- The download-button block at lines 134-141 of `src/app.py`: the button
is rendered exactly when `wordcloud_image_bytes` is truthy. -/
def attachDownload : Option (List Nat) → Option DownloadButton
  | none => none
  | some b => if b != [] then some (mkDownloadButton b) else none

/-- Observable outcome of one interaction pass (one rerun of the script):
the warnings displayed, whether `generate_wordcloud` was invoked, the
figure displayed via `st.pyplot` (if any), the value of
`wordcloud_image_bytes` at the end of the pass, and the download button
rendered (if any). -/
structure PassResult where
  warnings : List String
  generateCalled : Bool
  displayedFigure : Option Figure
  wordcloudImageBytes : Option (List Nat)
  download : Option DownloadButton
deriving DecidableEq, Repr

/-- One interaction pass of the script (`src/app.py` lines 94-141).
`libGenerate` is the external layout engine (`wc.generate`), `savefig`
the external PNG encoder (`fig.savefig`), both parameters of the model.
`clicked` tells whether `st.button` returned true on this rerun, and
`maxWordsAttempt` is the user's interaction with the slider (none =
untouched).  `wordcloud_image_bytes` starts as `None` on every pass
(line 72) and a propagated exception aborts the pass (`Except.error`). -/
def runPass (STOPWORDS : Finset String)
    (libGenerate : WCConfig → String → Except PyExn WCObject)
    (savefig : Figure → SaveFigParams → List Nat)
    (clicked : Bool) (user_text : String) (maxWordsAttempt : Option Int)
    (background_color selected_colormap custom_stopwords_input : String) :
    Except PyExn PassResult :=
  let max_words := sliderOutput max_words_slider maxWordsAttempt
  let mask_array : Option MaskArray := none
  let use_contour : Bool := false
  let contour_width : Int := 0
  let contour_color : String := "black"
  if clicked then
    if pyStrTruthy user_text && pyStrTruthy (pyStrip user_text) then
      match generate_wordcloud STOPWORDS libGenerate user_text max_words
          background_color selected_colormap custom_stopwords_input
          mask_array contour_width contour_color use_contour with
      | .error e => .error e
      | .ok (some w, ws) =>
          let fig := renderWordCloudFigure w
          let bytes := savefig fig appSaveFigParams
          .ok { warnings := ws, generateCalled := true,
                displayedFigure := some fig,
                wordcloudImageBytes := some bytes,
                download := attachDownload (some bytes) }
      | .ok (none, ws) =>
          .ok { warnings := ws, generateCalled := true,
                displayedFigure := none, wordcloudImageBytes := none,
                download := attachDownload none }
    else
      .ok { warnings := [emptyInputWarningMsg], generateCalled := false,
            displayedFigure := none, wordcloudImageBytes := none,
            download := attachDownload none }
  else
    .ok { warnings := [], generateCalled := false, displayedFigure := none,
          wordcloudImageBytes := none, download := attachDownload none }

/-- The configuration with which a pass invokes the layout engine: the
slider-reported max-words value together with the fixed mask/contour
arguments of lines 94-97 of `src/app.py`. -/
def passWCConfig (STOPWORDS : Finset String) (maxWordsAttempt : Option Int)
    (background_color selected_colormap custom_stopwords_input : String) :
    WCConfig :=
  mkWordCloudConfig STOPWORDS (sliderOutput max_words_slider maxWordsAttempt)
    background_color selected_colormap custom_stopwords_input none 0 "black"
    false

/-- Pass outcome when the generate button was not clicked. -/
def idlePassResult : PassResult :=
  { warnings := [], generateCalled := false, displayedFigure := none,
    wordcloudImageBytes := none, download := none }

/-- Pass outcome when the input text was blank or whitespace-only. -/
def emptyInputPassResult : PassResult :=
  { warnings := [emptyInputWarningMsg], generateCalled := false,
    displayedFigure := none, wordcloudImageBytes := none, download := none }

/-- Pass outcome for the distinguished "no renderable words" soft failure. -/
def emptyResultPassResult : PassResult :=
  { warnings := [emptyResultWarningMsg], generateCalled := true,
    displayedFigure := none, wordcloudImageBytes := none, download := none }

/-- Pass outcome when generation succeeded with word-cloud object `w`. -/
def successPassResult (savefig : Figure → SaveFigParams → List Nat)
    (w : WCObject) : PassResult :=
  { warnings := [], generateCalled := true,
    displayedFigure := some (renderWordCloudFigure w),
    wordcloudImageBytes := some (savefig (renderWordCloudFigure w)
      appSaveFigParams),
    download := attachDownload (some (savefig (renderWordCloudFigure w)
      appSaveFigParams)) }

/-- Sample stand-in for the external layout engine that always succeeds. -/
def demoLibOk (w : WCObject) : WCConfig → String → Except PyExn WCObject :=
  fun _ _ => .ok w

/-- Sample stand-in for the external layout engine that always raises. -/
def demoLibRaise (e : PyExn) : WCConfig → String → Except PyExn WCObject :=
  fun _ _ => .error e

/-- Sample stand-in for the external PNG encoder (PNG signature bytes). -/
def demoSavefig : Figure → SaveFigParams → List Nat :=
  fun _ _ => [137, 80, 78, 71]

/-! ### Helper lemmas about the string primitives and the stopword set -/

theorem pyLower_eq_empty_iff (s : String) : pyLower s = "" ↔ s = "" := by
  cases s with
  | mk data =>
    simp [pyLower, String.ext_iff]

theorem pyStrip_eq_empty_of_space (s : String)
    (h : ∀ c ∈ s.data, isPySpace c) : pyStrip s = "" := by
  have h1 : s.data.dropWhile isPySpace = [] :=
    List.dropWhile_eq_nil_iff.mpr h
  simp [pyStrip, h1, String.ext_iff]

theorem buildStopwords_eq (S : Finset String) (c : String) :
    buildStopwords S c = S ∪ specExtraStopwords c := by
  by_cases hc : c = ""
  · subst hc
    have h1 : specExtraStopwords "" = ∅ := by decide
    rw [h1, Finset.union_empty]
    simp [buildStopwords, pyStrTruthy]
  · rw [buildStopwords, specExtraStopwords, if_pos (by simp [pyStrTruthy, hc])]
    congr 1
    rw [List.filter_map]
    congr 1
    congr 1
    apply List.filter_congr
    intro w _
    by_cases h : pyStrip w = ""
    · simp [pyStrTruthy, h, Function.comp, pyLower]
    · have h2 : pyLower (pyStrip w) ≠ "" :=
        fun hcon => h ((pyLower_eq_empty_iff _).mp hcon)
      simp only [pyStrTruthy, Function.comp]
      rw [bne_iff_ne.mpr h, bne_iff_ne.mpr h2]

theorem toNat_charOfNat_valid {n : Nat} (h : n.isValidChar) :
    (Char.ofNat n).toNat = n := by
  rw [Char.ofNat, dif_pos h]
  rfl

theorem charToLower_idem (c : Char) : c.toLower.toLower = c.toLower := by
  simp only [Char.toLower]
  by_cases h : c.toNat ≥ 65 ∧ c.toNat ≤ 90
  · rw [if_pos h]
    have hv : Nat.isValidChar (c.toNat + 32) := Or.inl (by omega)
    have hn : ¬((Char.ofNat (c.toNat + 32)).toNat ≥ 65 ∧
        (Char.ofNat (c.toNat + 32)).toNat ≤ 90) := by
      rw [toNat_charOfNat_valid hv]
      omega
    rw [if_neg hn]
  · rw [if_neg h, if_neg h]

theorem pyLower_idem (s : String) : pyLower (pyLower s) = pyLower s := by
  cases s with
  | mk data =>
    show String.mk ((data.map Char.toLower).map Char.toLower) =
      String.mk (data.map Char.toLower)
    rw [List.map_map]
    congr 1
    apply List.map_congr_left
    intro a _
    exact charToLower_idem a

theorem mem_specExtraStopwords (w : String) (c : String)
    (h : w ∈ specExtraStopwords c) :
    w ≠ "" ∧ pyLower w = w := by
  rw [specExtraStopwords, List.mem_toFinset, List.mem_filter] at h
  obtain ⟨hmem, hne⟩ := h
  rw [List.mem_map] at hmem
  obtain ⟨piece, _, hpe⟩ := hmem
  constructor
  · exact bne_iff_ne.mp hne
  · rw [← hpe, pyLower_idem]

/-! ### Helper lemmas about one interaction pass -/

theorem runPass_not_clicked (S : Finset String)
    (lib : WCConfig → String → Except PyExn WCObject)
    (savefig : Figure → SaveFigParams → List Nat)
    (text : String) (a : Option Int) (bg cmap extra : String) :
    runPass S lib savefig false text a bg cmap extra = .ok idlePassResult := by
  rfl

theorem runPass_clicked_blank (S : Finset String)
    (lib : WCConfig → String → Except PyExn WCObject)
    (savefig : Figure → SaveFigParams → List Nat)
    (text : String) (a : Option Int) (bg cmap extra : String)
    (h : pyStrip text = "") :
    runPass S lib savefig true text a bg cmap extra =
      .ok emptyInputPassResult := by
  have hcond : (pyStrTruthy text && pyStrTruthy (pyStrip text)) = false := by
    simp [pyStrTruthy, h]
  simp only [runPass, if_true, hcond, Bool.false_eq_true, if_false]
  rfl

theorem runPass_clicked_valid (S : Finset String)
    (lib : WCConfig → String → Except PyExn WCObject)
    (savefig : Figure → SaveFigParams → List Nat)
    (text : String) (a : Option Int) (bg cmap extra : String)
    (h : pyStrip text ≠ "") :
    runPass S lib savefig true text a bg cmap extra =
      match lib (passWCConfig S a bg cmap extra) text with
      | .ok w => .ok (successPassResult savefig w)
      | .error (.valueError msg) =>
          if pyInStr "empty" (pyLower msg) then .ok emptyResultPassResult
          else .error (.valueError msg)
      | .error (.otherExn cls msg) => .error (.otherExn cls msg) := by
  have htext : text ≠ "" := by
    intro he
    exact h (by rw [he]; rfl)
  have hcond : (pyStrTruthy text && pyStrTruthy (pyStrip text)) = true := by
    simp [pyStrTruthy, htext, h]
  simp only [runPass, if_true, hcond, if_pos, generate_wordcloud, passWCConfig]
  cases hlib : lib (mkWordCloudConfig S (sliderOutput max_words_slider a) bg
      cmap extra none 0 "black" false) text with
  | ok w => rfl
  | error e =>
    cases e with
    | valueError msg =>
      by_cases he : pyInStr "empty" (pyLower msg) = true
      · simp [he, emptyResultPassResult, attachDownload]
      · simp [he]
    | otherExn cls msg => rfl

theorem runPass_ok_shape (S : Finset String)
    (lib : WCConfig → String → Except PyExn WCObject)
    (savefig : Figure → SaveFigParams → List Nat)
    (clicked : Bool) (text : String) (a : Option Int) (bg cmap extra : String)
    (r : PassResult)
    (hr : runPass S lib savefig clicked text a bg cmap extra = .ok r) :
    r = idlePassResult ∨ r = emptyInputPassResult ∨ r = emptyResultPassResult ∨
      ∃ w, lib (passWCConfig S a bg cmap extra) text = .ok w ∧
        r = successPassResult savefig w := by
  cases clicked with
  | false =>
    rw [runPass_not_clicked] at hr
    simp only [Except.ok.injEq] at hr
    exact Or.inl hr.symm
  | true =>
    by_cases hb : pyStrip text = ""
    · rw [runPass_clicked_blank S lib savefig text a bg cmap extra hb] at hr
      simp only [Except.ok.injEq] at hr
      exact Or.inr (Or.inl hr.symm)
    · rw [runPass_clicked_valid S lib savefig text a bg cmap extra hb] at hr
      cases hlib : lib (passWCConfig S a bg cmap extra) text with
      | ok w =>
        rw [hlib] at hr
        simp only [Except.ok.injEq] at hr
        exact Or.inr (Or.inr (Or.inr ⟨w, rfl, hr.symm⟩))
      | error e =>
        rw [hlib] at hr
        cases e with
        | valueError msg =>
          by_cases he : pyInStr "empty" (pyLower msg) = true
          · simp only [he, if_true, Except.ok.injEq] at hr
            exact Or.inr (Or.inr (Or.inl hr.symm))
          · simp only [he, if_false] at hr
            exact absurd hr (by simp)
        | otherExn cls msg =>
          exact absurd hr (by simp)

/-- C1: for every input text that is empty or consists only of whitespace,
triggering the generate action produces the user-visible warning, the
generation routine is never invoked, no image is displayed, and no
download artifact is produced. -/
theorem C1_blank_input_soft_warning (S : Finset String)
    (lib : WCConfig → String → Except PyExn WCObject)
    (savefig : Figure → SaveFigParams → List Nat)
    (text : String) (a : Option Int) (bg cmap extra : String)
    (h : ∀ c ∈ text.data, isPySpace c) :
    runPass S lib savefig true text a bg cmap extra =
      .ok { warnings := [emptyInputWarningMsg], generateCalled := false,
            displayedFigure := none, wordcloudImageBytes := none,
            download := none } :=
  runPass_clicked_blank S lib savefig text a bg cmap extra
    (pyStrip_eq_empty_of_space text h)

theorem C1_blank_input_soft_warning_witness :
    runPass {"the"} (demoLibOk ⟨7⟩) demoSavefig true " \t " none "#FFFFFF"
        "viridis" "" =
      .ok { warnings := [emptyInputWarningMsg], generateCalled := false,
            displayedFigure := none, wordcloudImageBytes := none,
            download := none } :=
  C1_blank_input_soft_warning {"the"} (demoLibOk ⟨7⟩) demoSavefig " \t " none
    "#FFFFFF" "viridis" "" (by decide)

/-- C2: for every extra-stopwords string, the stopword set passed to
generation equals the baseline set unioned with the strip-and-lowercase of
each comma-separated piece that is non-empty after stripping; the parsed
entries never contain the empty string and are always lowercase, and for
the input "the, AND ,, foo" the result is the baseline unioned with
{"the", "and", "foo"}. -/
theorem C2_stopword_set_union (S : Finset String) (extra : String) :
    buildStopwords S extra = S ∪ specExtraStopwords extra ∧
    "" ∉ specExtraStopwords extra ∧
    (∀ w ∈ specExtraStopwords extra, pyLower w = w) ∧
    buildStopwords S "the, AND ,, foo" =
      S ∪ ({"the", "and", "foo"} : Finset String) := by
  refine ⟨buildStopwords_eq S extra, ?_, ?_, ?_⟩
  · intro hmem
    exact (mem_specExtraStopwords "" extra hmem).1 rfl
  · intro w hw
    exact (mem_specExtraStopwords w extra hw).2
  · rw [buildStopwords_eq]
    have hx : specExtraStopwords "the, AND ,, foo" =
        ({"the", "and", "foo"} : Finset String) := by decide
    rw [hx]

theorem C2_stopword_set_union_witness :
    buildStopwords {"a"} "the, AND ,, foo" =
      {"a"} ∪ specExtraStopwords "the, AND ,, foo" ∧
    pyLower "and" = "and" :=
  ⟨(C2_stopword_set_union {"a"} "the, AND ,, foo").1,
   (C2_stopword_set_union {"a"} "the, AND ,, foo").2.2.1 "and" (by decide)⟩

/-- C3: given valid input text, the pass distinguishes exactly one
soft-failure outcome: a `ValueError` whose lower-cased message contains
"empty" (the library's signal that the stopword-filtered text had no
eligible words) yields no result and the specific actionable warning
(mentioning trying different text or fewer stopwords) with no image and
no download; every other exception raised during generation propagates
uncaught out of the pass. -/
theorem C3_error_discipline (S : Finset String)
    (lib : WCConfig → String → Except PyExn WCObject)
    (savefig : Figure → SaveFigParams → List Nat)
    (text : String) (a : Option Int) (bg cmap extra : String)
    (htext : pyStrip text ≠ "") :
    (∀ msg, lib (passWCConfig S a bg cmap extra) text =
        .error (.valueError msg) →
      pyInStr "empty" (pyLower msg) = true →
      runPass S lib savefig true text a bg cmap extra =
        .ok emptyResultPassResult) ∧
    pyInStr "try different text or fewer stopwords" emptyResultWarningMsg =
      true ∧
    emptyResultPassResult.warnings = [emptyResultWarningMsg] ∧
    emptyResultPassResult.displayedFigure = none ∧
    emptyResultPassResult.download = none ∧
    (∀ msg, lib (passWCConfig S a bg cmap extra) text =
        .error (.valueError msg) →
      pyInStr "empty" (pyLower msg) = false →
      runPass S lib savefig true text a bg cmap extra =
        .error (.valueError msg)) ∧
    (∀ cls msg, lib (passWCConfig S a bg cmap extra) text =
        .error (.otherExn cls msg) →
      runPass S lib savefig true text a bg cmap extra =
        .error (.otherExn cls msg)) := by
  refine ⟨?_, by decide, rfl, rfl, rfl, ?_, ?_⟩
  · intro msg hlib he
    rw [runPass_clicked_valid S lib savefig text a bg cmap extra htext, hlib]
    simp [he]
  · intro msg hlib he
    rw [runPass_clicked_valid S lib savefig text a bg cmap extra htext, hlib]
    simp [he]
  · intro cls msg hlib
    rw [runPass_clicked_valid S lib savefig text a bg cmap extra htext, hlib]

theorem C3_error_discipline_witness :
    runPass {"the"} (demoLibRaise (.valueError "We got an EMPTY result"))
        demoSavefig true "dog cat" none "#FFFFFF" "viridis" "" =
      .ok emptyResultPassResult ∧
    runPass {"the"} (demoLibRaise (.otherExn "OSError" "disk full"))
        demoSavefig true "dog cat" none "#FFFFFF" "viridis" "" =
      .error (.otherExn "OSError" "disk full") :=
  ⟨(C3_error_discipline {"the"}
      (demoLibRaise (.valueError "We got an EMPTY result")) demoSavefig
      "dog cat" none "#FFFFFF" "viridis" "" (by decide)).1
      "We got an EMPTY result" rfl (by decide),
   (C3_error_discipline {"the"} (demoLibRaise (.otherExn "OSError" "disk full"))
      demoSavefig "dog cat" none "#FFFFFF" "viridis" "" (by decide)).2.2.2.2.2.2
      "OSError" "disk full" rfl⟩

/-- C4: in every interaction pass, the download artifact is offered if
and only if a word-cloud result was successfully produced and encoded in
that same pass; the bytes variable is populated exactly when a figure was
displayed, and the offered button carries exactly the bytes encoded from
this pass's figure. -/
theorem C4_download_iff_success (S : Finset String)
    (lib : WCConfig → String → Except PyExn WCObject)
    (savefig : Figure → SaveFigParams → List Nat)
    (hsf : ∀ fig p, savefig fig p ≠ [])
    (clicked : Bool) (text : String) (a : Option Int) (bg cmap extra : String)
    (r : PassResult)
    (hr : runPass S lib savefig clicked text a bg cmap extra = .ok r) :
    (r.download.isSome ↔ r.displayedFigure.isSome) ∧
    (r.wordcloudImageBytes.isSome ↔ r.displayedFigure.isSome) ∧
    (∀ db, r.download = some db →
      ∃ w, lib (passWCConfig S a bg cmap extra) text = .ok w ∧
        r.displayedFigure = some (renderWordCloudFigure w) ∧
        db = mkDownloadButton
          (savefig (renderWordCloudFigure w) appSaveFigParams)) := by
  rcases runPass_ok_shape S lib savefig clicked text a bg cmap extra r hr with
    h | h | h | ⟨w, hlib, h⟩
  · subst h
    refine ⟨by simp [idlePassResult], by simp [idlePassResult], ?_⟩
    intro db hdb
    simp [idlePassResult] at hdb
  · subst h
    refine ⟨by simp [emptyInputPassResult], by simp [emptyInputPassResult], ?_⟩
    intro db hdb
    simp [emptyInputPassResult] at hdb
  · subst h
    refine ⟨by simp [emptyResultPassResult], by simp [emptyResultPassResult],
      ?_⟩
    intro db hdb
    simp [emptyResultPassResult] at hdb
  · subst h
    have hb : (savefig (renderWordCloudFigure w) appSaveFigParams != []) =
        true := bne_iff_ne.mpr (hsf _ _)
    refine ⟨by simp [successPassResult, attachDownload, hb],
      by simp [successPassResult], ?_⟩
    intro db hdb
    simp only [successPassResult, attachDownload, hb, if_true,
      Option.some.injEq] at hdb
    exact ⟨w, hlib, rfl, hdb.symm⟩

theorem C4_download_iff_success_witness :
    ((successPassResult demoSavefig ⟨7⟩).download.isSome ↔
      (successPassResult demoSavefig ⟨7⟩).displayedFigure.isSome) ∧
    ((successPassResult demoSavefig ⟨7⟩).wordcloudImageBytes.isSome ↔
      (successPassResult demoSavefig ⟨7⟩).displayedFigure.isSome) ∧
    (∀ db, (successPassResult demoSavefig ⟨7⟩).download = some db →
      ∃ w, demoLibOk ⟨7⟩ (passWCConfig {"the"} none "#FFFFFF" "viridis" "")
          "dog" = .ok w ∧
        (successPassResult demoSavefig ⟨7⟩).displayedFigure =
          some (renderWordCloudFigure w) ∧
        db = mkDownloadButton
          (demoSavefig (renderWordCloudFigure w) appSaveFigParams)) :=
  C4_download_iff_success {"the"} (demoLibOk ⟨7⟩) demoSavefig
    (fun _ _ => by simp [demoSavefig]) true "dog" none "#FFFFFF" "viridis" ""
    (successPassResult demoSavefig ⟨7⟩) rfl

/-- C5: whenever a download artifact is offered, its filename is exactly
"my_word_cloud.png" and its mime type is exactly "image/png", for every
combination of inputs. -/
theorem C5_download_constants (S : Finset String)
    (lib : WCConfig → String → Except PyExn WCObject)
    (savefig : Figure → SaveFigParams → List Nat)
    (clicked : Bool) (text : String) (a : Option Int) (bg cmap extra : String)
    (r : PassResult) (db : DownloadButton)
    (hr : runPass S lib savefig clicked text a bg cmap extra = .ok r)
    (hdb : r.download = some db) :
    db.file_name = "my_word_cloud.png" ∧ db.mime = "image/png" := by
  rcases runPass_ok_shape S lib savefig clicked text a bg cmap extra r hr with
    h | h | h | ⟨w, _, h⟩
  · subst h
    simp [idlePassResult] at hdb
  · subst h
    simp [emptyInputPassResult] at hdb
  · subst h
    simp [emptyResultPassResult] at hdb
  · subst h
    simp only [successPassResult, attachDownload] at hdb
    by_cases hb : (savefig (renderWordCloudFigure w) appSaveFigParams != []) =
        true
    · rw [if_pos hb] at hdb
      simp only [Option.some.injEq] at hdb
      rw [← hdb]
      exact ⟨rfl, rfl⟩
    · rw [if_neg hb] at hdb
      simp at hdb

theorem C5_download_constants_witness :
    (mkDownloadButton (demoSavefig (renderWordCloudFigure ⟨7⟩)
      appSaveFigParams)).file_name = "my_word_cloud.png" ∧
    (mkDownloadButton (demoSavefig (renderWordCloudFigure ⟨7⟩)
      appSaveFigParams)).mime = "image/png" :=
  C5_download_constants {"the"} (demoLibOk ⟨7⟩) demoSavefig true "dog" none
    "#FFFFFF" "viridis" "" (successPassResult demoSavefig ⟨7⟩)
    (mkDownloadButton (demoSavefig (renderWordCloudFigure ⟨7⟩)
      appSaveFigParams)) rfl rfl

theorem sliderOutput_range (a : Option Int) :
    10 ≤ sliderOutput max_words_slider a ∧
      sliderOutput max_words_slider a ≤ 500 := by
  cases a with
  | none => exact ⟨by norm_num [sliderOutput, max_words_slider],
      by norm_num [sliderOutput, max_words_slider]⟩
  | some v =>
    simp only [sliderOutput, max_words_slider]
    constructor
    · exact le_max_left 10 (min 500 v)
    · exact max_le (by norm_num) (min_le_left 500 v)

/-- C6: the max_words value passed to the generation routine is always an
integer in [10,500]: the slider is configured with minimum 10, maximum
500, default 100 and step 10, its reported value is clamped into range
(boundary checks at 9, 10, 500, 501), the configuration built by a pass
carries exactly that value, and two layout engines agreeing on all
configurations with max_words in [10,500] are indistinguishable to a
pass — so out-of-range values can never reach generation. -/
theorem C6_max_words_range (S : Finset String) (a : Option Int)
    (bg cmap extra : String) :
    max_words_slider.min_value = 10 ∧ max_words_slider.max_value = 500 ∧
    max_words_slider.value = 100 ∧ max_words_slider.step = 10 ∧
    (passWCConfig S a bg cmap extra).max_words =
      sliderOutput max_words_slider a ∧
    10 ≤ (passWCConfig S a bg cmap extra).max_words ∧
    (passWCConfig S a bg cmap extra).max_words ≤ 500 ∧
    sliderOutput max_words_slider (some 9) = 10 ∧
    sliderOutput max_words_slider (some 10) = 10 ∧
    sliderOutput max_words_slider (some 500) = 500 ∧
    sliderOutput max_words_slider (some 501) = 500 ∧
    sliderOutput max_words_slider none = 100 ∧
    (∀ (lib lib' : WCConfig → String → Except PyExn WCObject)
        (savefig : Figure → SaveFigParams → List Nat) (text : String),
      (∀ cfg : WCConfig, 10 ≤ cfg.max_words → cfg.max_words ≤ 500 →
        lib cfg text = lib' cfg text) →
      runPass S lib savefig true text a bg cmap extra =
        runPass S lib' savefig true text a bg cmap extra) := by
  refine ⟨rfl, rfl, rfl, rfl, rfl, (sliderOutput_range a).1,
    (sliderOutput_range a).2, by decide, by decide, by decide, by decide, rfl,
    ?_⟩
  intro lib lib' savefig text hagree
  by_cases hb : pyStrip text = ""
  · rw [runPass_clicked_blank S lib savefig text a bg cmap extra hb,
        runPass_clicked_blank S lib' savefig text a bg cmap extra hb]
  · rw [runPass_clicked_valid S lib savefig text a bg cmap extra hb,
        runPass_clicked_valid S lib' savefig text a bg cmap extra hb,
        hagree (passWCConfig S a bg cmap extra) (sliderOutput_range a).1
          (sliderOutput_range a).2]

theorem C6_max_words_range_witness :
    max_words_slider.min_value = 10 ∧
    runPass {"the"} (demoLibOk ⟨7⟩) demoSavefig true "dog" (some 501) "#FFFFFF"
        "viridis" "" =
      runPass {"the"} (demoLibOk ⟨7⟩) demoSavefig true "dog" (some 501)
        "#FFFFFF" "viridis" "" :=
  ⟨(C6_max_words_range {"the"} (some 501) "#FFFFFF" "viridis" "").1,
   (C6_max_words_range {"the"} (some 501) "#FFFFFF" "viridis"
      "").2.2.2.2.2.2.2.2.2.2.2.2 (demoLibOk ⟨7⟩) (demoLibOk ⟨7⟩) demoSavefig
      "dog" (fun _ _ _ => rfl)⟩

/-- C7: in every interaction flow the mask is absent, so the generation
routine is configured with the fixed default canvas size (width 1200,
height 600) and contour width 0; no user control ever sets the
mask/contour parameters, so two layout engines agreeing on maskless
zero-contour configurations are indistinguishable to a pass. -/
theorem C7_mask_absent_defaults (S : Finset String) (a : Option Int)
    (bg cmap extra : String) :
    (passWCConfig S a bg cmap extra).mask = none ∧
    (passWCConfig S a bg cmap extra).width = some 1200 ∧
    (passWCConfig S a bg cmap extra).height = some 600 ∧
    (passWCConfig S a bg cmap extra).contour_width = 0 ∧
    (passWCConfig S a bg cmap extra).contour_color = "black" ∧
    (∀ (lib lib' : WCConfig → String → Except PyExn WCObject)
        (savefig : Figure → SaveFigParams → List Nat) (text : String),
      (∀ cfg : WCConfig, cfg.mask = none → cfg.contour_width = 0 →
        cfg.width = some 1200 → cfg.height = some 600 →
        lib cfg text = lib' cfg text) →
      runPass S lib savefig true text a bg cmap extra =
        runPass S lib' savefig true text a bg cmap extra) := by
  refine ⟨rfl, rfl, rfl, rfl, rfl, ?_⟩
  intro lib lib' savefig text hagree
  by_cases hb : pyStrip text = ""
  · rw [runPass_clicked_blank S lib savefig text a bg cmap extra hb,
        runPass_clicked_blank S lib' savefig text a bg cmap extra hb]
  · rw [runPass_clicked_valid S lib savefig text a bg cmap extra hb,
        runPass_clicked_valid S lib' savefig text a bg cmap extra hb,
        hagree (passWCConfig S a bg cmap extra) rfl rfl rfl rfl]

theorem C7_mask_absent_defaults_witness :
    (passWCConfig {"the"} none "#FFFFFF" "viridis" "").mask = none ∧
    runPass {"the"} (demoLibOk ⟨7⟩) demoSavefig true "dog" none "#FFFFFF"
        "viridis" "" =
      runPass {"the"} (demoLibOk ⟨7⟩) demoSavefig true "dog" none "#FFFFFF"
        "viridis" "" :=
  ⟨(C7_mask_absent_defaults {"the"} none "#FFFFFF" "viridis" "").1,
   (C7_mask_absent_defaults {"the"} none "#FFFFFF" "viridis" "").2.2.2.2.2
      (demoLibOk ⟨7⟩) (demoLibOk ⟨7⟩) demoSavefig "dog"
      (fun _ _ _ _ _ => rfl)⟩

/-- C8: every configuration the program ever builds for the generation
routine has the fixed minimum rendered font size 10 and the fixed
horizontal-orientation bias 0.9, independent of any user input. -/
theorem C8_fixed_font_and_orientation (S : Finset String) (a : Option Int)
    (bg cmap extra : String) (max_words : Int)
    (mask_image_array : Option MaskArray) (contour_width : Int)
    (contour_color : String) (use_contour : Bool) :
    (passWCConfig S a bg cmap extra).min_font_size = 10 ∧
    (passWCConfig S a bg cmap extra).prefer_horizontal = (9 : ℚ) / 10 ∧
    (mkWordCloudConfig S max_words bg cmap extra mask_image_array
      contour_width contour_color use_contour).min_font_size = 10 ∧
    (mkWordCloudConfig S max_words bg cmap extra mask_image_array
      contour_width contour_color use_contour).prefer_horizontal =
      (9 : ℚ) / 10 :=
  ⟨rfl, rfl, rfl, rfl⟩

/-- C9: every successfully generated word cloud is drawn on a (12,6)
canvas with bilinear interpolation and axes suppressed, and the PNG bytes
used for display and download are the encoding of exactly that figure
with format PNG, tight bounding box, 0.1-inch padding and 300 DPI; the
encoding is a function of the figure and parameters, hence deterministic. -/
theorem C9_render_and_encode (S : Finset String)
    (lib : WCConfig → String → Except PyExn WCObject)
    (savefig : Figure → SaveFigParams → List Nat)
    (clicked : Bool) (text : String) (a : Option Int) (bg cmap extra : String)
    (r : PassResult) (fig : Figure)
    (hr : runPass S lib savefig clicked text a bg cmap extra = .ok r)
    (hf : r.displayedFigure = some fig) :
    fig.axisShown = false ∧ fig.figsize = (12, 6) ∧
    fig.interpolation = "bilinear" ∧
    (∃ w, lib (passWCConfig S a bg cmap extra) text = .ok w ∧
      fig = renderWordCloudFigure w) ∧
    r.wordcloudImageBytes = some (savefig fig appSaveFigParams) ∧
    appSaveFigParams.format = "PNG" ∧
    appSaveFigParams.bbox_inches = "tight" ∧
    appSaveFigParams.pad_inches = (1 : ℚ) / 10 ∧
    appSaveFigParams.dpi = 300 := by
  rcases runPass_ok_shape S lib savefig clicked text a bg cmap extra r hr with
    h | h | h | ⟨w, hlib, h⟩
  · subst h
    simp [idlePassResult] at hf
  · subst h
    simp [emptyInputPassResult] at hf
  · subst h
    simp [emptyResultPassResult] at hf
  · subst h
    simp only [successPassResult, Option.some.injEq] at hf
    subst hf
    exact ⟨rfl, rfl, rfl, ⟨w, hlib, rfl⟩, rfl, rfl, rfl, rfl, rfl⟩

theorem C9_render_and_encode_witness :
    (renderWordCloudFigure ⟨7⟩).axisShown = false ∧
    (renderWordCloudFigure ⟨7⟩).figsize = (12, 6) ∧
    (renderWordCloudFigure ⟨7⟩).interpolation = "bilinear" ∧
    (∃ w, demoLibOk ⟨7⟩ (passWCConfig {"the"} none "#FFFFFF" "viridis" "")
        "dog" = .ok w ∧
      renderWordCloudFigure ⟨7⟩ = renderWordCloudFigure w) ∧
    (successPassResult demoSavefig ⟨7⟩).wordcloudImageBytes =
      some (demoSavefig (renderWordCloudFigure ⟨7⟩) appSaveFigParams) ∧
    appSaveFigParams.format = "PNG" ∧
    appSaveFigParams.bbox_inches = "tight" ∧
    appSaveFigParams.pad_inches = (1 : ℚ) / 10 ∧
    appSaveFigParams.dpi = 300 :=
  C9_render_and_encode {"the"} (demoLibOk ⟨7⟩) demoSavefig true "dog" none
    "#FFFFFF" "viridis" "" (successPassResult demoSavefig ⟨7⟩)
    (renderWordCloudFigure ⟨7⟩) rfl rfl

theorem specExtraStopwords_perm (c1 c2 : String)
    (h : (pySplitComma c1).Perm (pySplitComma c2)) :
    specExtraStopwords c1 = specExtraStopwords c2 := by
  rw [specExtraStopwords, specExtraStopwords]
  exact List.toFinset_eq_of_perm _ _
    ((h.map (fun piece => pyLower (pyStrip piece))).filter
      (fun piece => piece != ""))

/-- C10: the stopword-set construction is insensitive to order,
duplication, surrounding whitespace and letter case of the
comma-separated extra entries, and when every piece is empty after
trimming (in particular for the empty string) the result is exactly the
baseline set. -/
theorem C10_stopword_set_algebra (S : Finset String) :
    (∀ c1 c2 : String, (pySplitComma c1).Perm (pySplitComma c2) →
      buildStopwords S c1 = buildStopwords S c2) ∧
    (∀ (c1 c2 x : String), pySplitComma c2 = pySplitComma c1 ++ [x] →
      x ∈ pySplitComma c1 → buildStopwords S c1 = buildStopwords S c2) ∧
    (∀ (c1 c2 : String) (l1 l2 : List String) (w w' : String),
      pySplitComma c1 = l1 ++ w :: l2 → pySplitComma c2 = l1 ++ w' :: l2 →
      pyLower (pyStrip w') = pyLower (pyStrip w) →
      buildStopwords S c1 = buildStopwords S c2) ∧
    (∀ c : String, (∀ w ∈ pySplitComma c, pyStrip w = "") →
      buildStopwords S c = S) := by
  refine ⟨?_, ?_, ?_, ?_⟩
  · intro c1 c2 h
    rw [buildStopwords_eq, buildStopwords_eq, specExtraStopwords_perm c1 c2 h]
  · intro c1 c2 x happ hx
    rw [buildStopwords_eq, buildStopwords_eq]
    have : specExtraStopwords c2 = specExtraStopwords c1 := by
      rw [specExtraStopwords, specExtraStopwords, happ, List.map_append,
        List.filter_append, List.toFinset_append]
      apply Finset.union_eq_left.mpr
      intro y hy
      rw [List.mem_toFinset, List.mem_filter] at hy
      rw [List.mem_toFinset, List.mem_filter]
      obtain ⟨hmem, hq⟩ := hy
      rw [List.mem_map] at hmem
      obtain ⟨p, hp, hfp⟩ := hmem
      rw [List.mem_singleton] at hp
      subst hp
      exact ⟨List.mem_map.mpr ⟨p, hx, hfp⟩, hq⟩
    rw [this]
  · intro c1 c2 l1 l2 w w' h1 h2 hww
    rw [buildStopwords_eq, buildStopwords_eq]
    have : specExtraStopwords c1 = specExtraStopwords c2 := by
      rw [specExtraStopwords, specExtraStopwords, h1, h2, List.map_append,
        List.map_append, List.map_cons, List.map_cons, hww]
    rw [this]
  · intro c h
    rw [buildStopwords_eq]
    have : specExtraStopwords c = ∅ := by
      rw [specExtraStopwords]
      have hnil : ((pySplitComma c).map
          (fun piece => pyLower (pyStrip piece))).filter
          (fun piece => piece != "") = [] := by
        rw [List.filter_eq_nil_iff]
        intro b hb
        rw [List.mem_map] at hb
        obtain ⟨piece, hpm, hpe⟩ := hb
        rw [← hpe, h piece hpm]
        simp [pyLower]
      rw [hnil]
      rfl
    rw [this, Finset.union_empty]

theorem C10_stopword_set_algebra_witness :
    buildStopwords {"the"} "a,b" = buildStopwords {"the"} "b,a" ∧
    buildStopwords {"the"} "a,b" = buildStopwords {"the"} "a,b,a" ∧
    buildStopwords {"the"} "x, Dog" = buildStopwords {"the"} "x,dog  " ∧
    buildStopwords {"the"} " , ," = {"the"} :=
  ⟨(C10_stopword_set_algebra {"the"}).1 "a,b" "b,a" (by decide),
   (C10_stopword_set_algebra {"the"}).2.1 "a,b" "a,b,a" "a" (by decide)
     (by decide),
   (C10_stopword_set_algebra {"the"}).2.2.1 "x, Dog" "x,dog  " ["x"] []
     " Dog" "dog  " (by decide) (by decide) (by decide),
   (C10_stopword_set_algebra {"the"}).2.2.2 " , ," (by decide)⟩
